import Mathlib

/-
  Verification of the slogf logging facade (keithshum/slogf, setup.go).

  The Go source wraps log/slog 1.21: InitLogging configures a process-wide
  logger (threshold + text/json handler + a ReplaceAttr rewrite), and ten
  emitter functions (Debug/Info/Warn/Error/Fatal and their printf-style
  f-variants) check the threshold, build a record and hand it to the
  handler; Fatal/Fatalf additionally call os.Exit(1) after the write.

  Shallow embedding conventions:
  - slog.Level is an Int (Debug=-4, Info=0, Warn=4, Error=8, Fatal=12).
  - The global `Logger *slog.Logger` is an `Option GoLogger`; calling a
    method on a nil pointer is the `GoPanic.nilPointerDereference` error.
  - An emitter call is reduced to its observable trace: a `List Ev` of
    events in temporal order (`fmtCall` = fmt.Sprintf invoked, `write` =
    Handler.Handle invoked with the record, carrying the error value the
    handler returned and the caller discarded, `exitProc` = os.Exit).
    Timestamps and program counters are environment inputs with no
    logical content and are omitted from the record.
  - The handler's write outcome is an input `hErr : Option String`
    (none = success, some e = the error slog's Handle returned).
  - fmt.Sprintf is modelled for the `%v` verb, `%%`, literal text, and
    Go's `%!v(MISSING)` / `%!(EXTRA ...)` behavior, which covers every
    use in this repository's documentation and examples.
-/

namespace Slogf

/-- A Go `any` value as passed to the variadic emitters: the dynamic
types this package's API exercises (the type switch in slog's pairing
rule only distinguishes `string` from everything else). -/
inductive GoAny where
  | str (s : String)
  | int (n : Int)
  | boolv (b : Bool)
deriving DecidableEq

/-- slog's sentinel key for a dangling or ill-typed attribute argument. -/
def badKey : String := "!BADKEY"

/-- slog.Record.Add / argsToAttr pairing rule (log/slog, Go 1.21):
a string followed by another element forms a (key, value) pair; a lone
trailing string becomes ("!BADKEY", s); a non-string in key position
becomes ("!BADKEY", x) consuming only itself. -/
def goPairArgs : List GoAny → List (String × GoAny)
  | [] => []
  | GoAny.str s :: [] => [(badKey, GoAny.str s)]
  | GoAny.str s :: v :: rest => (s, v) :: goPairArgs rest
  | x :: rest => (badKey, x) :: goPairArgs rest

/-- Rendering of a value under fmt's `%v` verb for the types modelled. -/
def goAnyString : GoAny → String
  | GoAny.str s => s
  | GoAny.int n => toString n
  | GoAny.boolv b => if b then "true" else "false"

/-- Go dynamic type name, used in fmt's EXTRA diagnostics. -/
def goAnyTypeName : GoAny → String
  | GoAny.str _ => "string"
  | GoAny.int _ => "int"
  | GoAny.boolv _ => "bool"

/-- Comma-separated `type=value` list for fmt's `%!(EXTRA ...)` suffix. -/
def extraArgs : List GoAny → String
  | [] => ""
  | a :: rest =>
    goAnyTypeName a ++ "=" ++ goAnyString a ++
      (if rest = [] then "" else ", " ++ extraArgs rest)

/-- Core loop of the fmt.Sprintf model over the format's characters. -/
def sprintfChars : List Char → List GoAny → String
  | '%' :: 'v' :: rest, a :: args => goAnyString a ++ sprintfChars rest args
  | '%' :: 'v' :: rest, [] => "%!v(MISSING)" ++ sprintfChars rest []
  | '%' :: '%' :: rest, args => "%" ++ sprintfChars rest args
  | c :: rest, args => String.mk [c] ++ sprintfChars rest args
  | [], [] => ""
  | [], args => "%!(EXTRA " ++ extraArgs args ++ ")"

/-- fmt.Sprintf restricted to the verbs this package's examples use. -/
def goSprintf (format : String) (args : List GoAny) : String :=
  sprintfChars format.toList args

/-- slog.LevelDebug. -/
def levelDebug : Int := -4
/-- slog.LevelInfo. -/
def levelInfo : Int := 0
/-- slog.LevelWarn. -/
def levelWarn : Int := 4
/-- slog.LevelError. -/
def levelError : Int := 8
/-- The synthetic level `LevelFatal = slog.Level(12)` from setup.go. -/
def LevelFatal : Int := 12

/-- slog.Level.String's suffix rule: base name, then `%+d` of the delta
when it is nonzero. -/
def levelSuffix (base : String) (val : Int) : String :=
  if val = 0 then base
  else if 0 < val then base ++ "+" ++ toString val
  else base ++ toString val

/-- slog.Level.String (log/slog, Go 1.21): the native rendering of a
level value; it has no name for 12, which renders as "ERROR+4". -/
def levelString (l : Int) : String :=
  if l < levelInfo then levelSuffix "DEBUG" (l - levelDebug)
  else if l < levelWarn then levelSuffix "INFO" (l - levelInfo)
  else if l < levelError then levelSuffix "WARN" (l - levelWarn)
  else levelSuffix "ERROR" (l - levelError)

/-- An slog.Value as seen by the ReplaceAttr callback in this package:
a string, a level, or a *slog.Source (function, file, line). -/
inductive SlogValue where
  | str (s : String)
  | level (l : Int)
  | source (function : String) (file : String) (line : Nat)
deriving DecidableEq

/-- An slog.Attr: key plus value. -/
structure SlogAttr where
  key : String
  value : SlogValue
deriving DecidableEq

/-- slog.SourceKey. -/
def sourceKey : String := "source"
/-- slog.LevelKey. -/
def levelKey : String := "level"

/-- path/filepath.Base on a unix path, char-list core: strip trailing
separators, then keep everything after the last separator. -/
def baseChars (cs : List Char) : List Char :=
  (((cs.reverse).dropWhile (fun c => c = '/')).takeWhile (fun c => c ≠ '/')).reverse

/-- path/filepath.Base (Go): "" maps to ".", an all-separator path maps
to "/", otherwise the last path element. -/
def goFilepathBase (path : String) : String :=
  if path = "" then "."
  else if baseChars path.toList = [] then "/"
  else String.mk (baseChars path.toList)

/-- The `replace` closure from InitLogging (setup.go lines 187-202):
reduce the source attr's file to its basename; rename the level key to
"level" and map the LevelFatal value to the string "FATAL". The Go type
assertions `a.Value.Any().(*slog.Source)` and `...(slog.Level)` always
succeed for the attrs slog hands this callback; the non-matching match
arms keep the attr unchanged. -/
def replace (groups : List String) (a : SlogAttr) : SlogAttr :=
  let a1 :=
    if a.key = sourceKey then
      match a.value with
      | SlogValue.source fn file line =>
        { a with value := SlogValue.source fn (goFilepathBase file) line }
      | v => { a with value := v }
    else a
  if a1.key = levelKey then
    let a2 := { a1 with key := "level" }
    match a2.value with
    | SlogValue.level l =>
      if l = LevelFatal then { a2 with value := SlogValue.str "FATAL" } else a2
    | v => { a2 with value := v }
  else a1

/-- How the handler renders an attr value: strings verbatim, levels via
slog.Level.String, sources as function file:line. -/
def renderValue : SlogValue → String
  | SlogValue.str s => s
  | SlogValue.level l => levelString l
  | SlogValue.source fn file line => fn ++ " " ++ file ++ ":" ++ toString line

/-- Handler kind selected by InitLogging: slog.NewTextHandler or
slog.NewJSONHandler. -/
inductive HandlerKind where
  | text
  | json
deriving DecidableEq

/-- The configured process-wide logger: minimum level and handler from
slog.HandlerOptions, and the ReplaceAttr callback. -/
structure GoLogger where
  minLevel : Int
  handler : HandlerKind
  replaceAttr : List String → SlogAttr → SlogAttr

/-- slog.Logger.Enabled via the handler's options: a record at level
`lvl` passes iff `minLevel ≤ lvl`. -/
def enabled (l : GoLogger) (lvl : Int) : Bool := decide (l.minLevel ≤ lvl)

/-- Go strings.ToLower, on the ASCII range this package compares
against ("text"): lowercase every character. -/
def goToLower (s : String) : String := String.mk (s.toList.map Char.toLower)

/-- InitLogging (setup.go lines 185-217): threshold Debug when `debug`,
Info otherwise; text handler iff strings.ToLower(format) == "text",
JSON handler for every other format string; both with AddSource and the
`replace` rewrite. A pure total function: it cannot fail or exit. -/
def InitLogging (debug : Bool) (format : String) : GoLogger :=
  if debug = true then
    if goToLower format = "text" then
      { minLevel := levelDebug, handler := HandlerKind.text, replaceAttr := replace }
    else
      { minLevel := levelDebug, handler := HandlerKind.json, replaceAttr := replace }
  else
    if goToLower format = "text" then
      { minLevel := levelInfo, handler := HandlerKind.text, replaceAttr := replace }
    else
      { minLevel := levelInfo, handler := HandlerKind.json, replaceAttr := replace }

/-- The record an emitter constructs (slog.NewRecord + Record.Add);
capture time and program counter are environment inputs omitted here. -/
structure GoRecord where
  level : Int
  msg : String
  attrs : List (String × GoAny)
deriving DecidableEq

/-- Observable events of one emitter call, in temporal order. -/
inductive Ev where
  | fmtCall
  | write (r : GoRecord) (err : Option String)
  | exitProc (code : Nat)
deriving DecidableEq

/-- A Go runtime panic relevant to this package. -/
inductive GoPanic where
  | nilPointerDereference
deriving DecidableEq

/-- Calling a method (here Logger.Enabled, the first thing every
emitter does) on the global logger: panics when the pointer is nil. -/
def derefLogger : Option GoLogger → Except GoPanic GoLogger
  | none => Except.error GoPanic.nilPointerDereference
  | some l => Except.ok l

/-- Debug (setup.go 63-72): threshold check, record with the literal
message and paired attrs, synchronous Handle with the error discarded. -/
def Debug (lg : Option GoLogger) (hErr : Option String)
    (format : String) (args : List GoAny) : Except GoPanic (List Ev) :=
  match derefLogger lg with
  | Except.error p => Except.error p
  | Except.ok l =>
    if !(enabled l levelDebug) then Except.ok []
    else Except.ok
      [Ev.write { level := levelDebug, msg := format, attrs := goPairArgs args } hErr]

/-- Debugf (setup.go 75-83): threshold check, then Sprintf, record with
the formatted message and no attrs, Handle with the error discarded. -/
def Debugf (lg : Option GoLogger) (hErr : Option String)
    (format : String) (args : List GoAny) : Except GoPanic (List Ev) :=
  match derefLogger lg with
  | Except.error p => Except.error p
  | Except.ok l =>
    if !(enabled l levelDebug) then Except.ok []
    else Except.ok
      [Ev.fmtCall,
       Ev.write { level := levelDebug, msg := goSprintf format args, attrs := [] } hErr]

/-- Info (setup.go 86-95). -/
def Info (lg : Option GoLogger) (hErr : Option String)
    (format : String) (args : List GoAny) : Except GoPanic (List Ev) :=
  match derefLogger lg with
  | Except.error p => Except.error p
  | Except.ok l =>
    if !(enabled l levelInfo) then Except.ok []
    else Except.ok
      [Ev.write { level := levelInfo, msg := format, attrs := goPairArgs args } hErr]

/-- Infof (setup.go 98-106). -/
def Infof (lg : Option GoLogger) (hErr : Option String)
    (format : String) (args : List GoAny) : Except GoPanic (List Ev) :=
  match derefLogger lg with
  | Except.error p => Except.error p
  | Except.ok l =>
    if !(enabled l levelInfo) then Except.ok []
    else Except.ok
      [Ev.fmtCall,
       Ev.write { level := levelInfo, msg := goSprintf format args, attrs := [] } hErr]

/-- Warn (setup.go 109-118). -/
def Warn (lg : Option GoLogger) (hErr : Option String)
    (format : String) (args : List GoAny) : Except GoPanic (List Ev) :=
  match derefLogger lg with
  | Except.error p => Except.error p
  | Except.ok l =>
    if !(enabled l levelWarn) then Except.ok []
    else Except.ok
      [Ev.write { level := levelWarn, msg := format, attrs := goPairArgs args } hErr]

/-- Warnf (setup.go 121-129). -/
def Warnf (lg : Option GoLogger) (hErr : Option String)
    (format : String) (args : List GoAny) : Except GoPanic (List Ev) :=
  match derefLogger lg with
  | Except.error p => Except.error p
  | Except.ok l =>
    if !(enabled l levelWarn) then Except.ok []
    else Except.ok
      [Ev.fmtCall,
       Ev.write { level := levelWarn, msg := goSprintf format args, attrs := [] } hErr]

/-- Error (setup.go 132-141). -/
def Error (lg : Option GoLogger) (hErr : Option String)
    (format : String) (args : List GoAny) : Except GoPanic (List Ev) :=
  match derefLogger lg with
  | Except.error p => Except.error p
  | Except.ok l =>
    if !(enabled l levelError) then Except.ok []
    else Except.ok
      [Ev.write { level := levelError, msg := format, attrs := goPairArgs args } hErr]

/-- Errorf (setup.go 144-152). -/
def Errorf (lg : Option GoLogger) (hErr : Option String)
    (format : String) (args : List GoAny) : Except GoPanic (List Ev) :=
  match derefLogger lg with
  | Except.error p => Except.error p
  | Except.ok l =>
    if !(enabled l levelError) then Except.ok []
    else Except.ok
      [Ev.fmtCall,
       Ev.write { level := levelError, msg := goSprintf format args, attrs := [] } hErr]

/-- Fatal (setup.go 155-166): like Debug at LevelFatal, then
os.Exit(1) after the Handle call returns. -/
def Fatal (lg : Option GoLogger) (hErr : Option String)
    (format : String) (args : List GoAny) : Except GoPanic (List Ev) :=
  match derefLogger lg with
  | Except.error p => Except.error p
  | Except.ok l =>
    if !(enabled l LevelFatal) then Except.ok []
    else Except.ok
      [Ev.write { level := LevelFatal, msg := format, attrs := goPairArgs args } hErr,
       Ev.exitProc 1]

/-- Fatalf (setup.go 169-178): like Debugf at LevelFatal, then
os.Exit(1) after the Handle call returns. -/
def Fatalf (lg : Option GoLogger) (hErr : Option String)
    (format : String) (args : List GoAny) : Except GoPanic (List Ev) :=
  match derefLogger lg with
  | Except.error p => Except.error p
  | Except.ok l =>
    if !(enabled l LevelFatal) then Except.ok []
    else Except.ok
      [Ev.fmtCall,
       Ev.write { level := LevelFatal, msg := goSprintf format args, attrs := [] } hErr,
       Ev.exitProc 1]

/-- Number of records handed to the handler in a trace. -/
def writeCount : List Ev → Nat
  | [] => 0
  | Ev.write _ _ :: rest => 1 + writeCount rest
  | _ :: rest => writeCount rest

/-- Number of records handed to the handler by a call that did not panic. -/
def resultWriteCount : Except GoPanic (List Ev) → Nat
  | Except.ok evs => writeCount evs
  | Except.error _ => 0

/-- Whether a trace contains an os.Exit event. -/
def hasExit : List Ev → Bool
  | [] => false
  | Ev.exitProc _ :: _ => true
  | _ :: rest => hasExit rest

/-- Whether a call's trace contains an os.Exit event. -/
def resultHasExit : Except GoPanic (List Ev) → Bool
  | Except.ok evs => hasExit evs
  | Except.error _ => false

/-- Erase the handler's (discarded) write error from an event, keeping
everything the caller can observe. -/
def eraseWriteErr : Ev → Ev
  | Ev.write r _ => Ev.write r none
  | e => e

/-- The caller-observable behavior of a call: its trace with the
discarded write errors erased. -/
def obsEvents : Except GoPanic (List Ev) → Except GoPanic (List Ev)
  | Except.ok evs => Except.ok (evs.map eraseWriteErr)
  | Except.error p => Except.error p

/-- Whether a call returned normally (no panic). -/
def isOkE : Except GoPanic (List Ev) → Bool
  | Except.ok _ => true
  | Except.error _ => false

/-- An argument expression at a Go call site: `effectful` marks an
expression (such as `expensiveComputation()`) whose evaluation bumps a
side-effect counter. -/
inductive GoExpr where
  | lit (v : GoAny)
  | effectful (v : GoAny)
deriving DecidableEq

/-- The value an argument expression evaluates to. -/
def exprVal : GoExpr → GoAny
  | GoExpr.lit v => v
  | GoExpr.effectful v => v

/-- Evaluate one argument expression, threading the side-effect counter. -/
def evalExpr : GoExpr → Nat → GoAny × Nat
  | GoExpr.lit v, c => (v, c)
  | GoExpr.effectful v, c => (v, c + 1)

/-- Evaluate a call's argument expressions left to right, as Go does. -/
def evalArgs : List GoExpr → Nat → List GoAny × Nat
  | [], c => ([], c)
  | e :: rest, c =>
    let (v, c1) := evalExpr e c
    let (vs, c2) := evalArgs rest c1
    (v :: vs, c2)

/-- Number of effectful argument expressions in a list. -/
def effectCount : List GoExpr → Nat
  | [] => 0
  | GoExpr.effectful _ :: rest => 1 + effectCount rest
  | _ :: rest => effectCount rest

/-- A call site `Debugf(format, e1, ..., en)` under Go's strict
(call-by-value) semantics: the argument expressions are evaluated left
to right before Debugf's body runs, whatever the configured threshold. -/
def callDebugf (lg : Option GoLogger) (hErr : Option String)
    (format : String) (argExprs : List GoExpr) (c : Nat) :
    Except GoPanic (List Ev) × Nat :=
  let (vals, c2) := evalArgs argExprs c
  (Debugf lg hErr format vals, c2)

/-- Flatten an alternating key/value pair list into the variadic `any`
list a Go caller would pass. -/
def pairList : List (String × GoAny) → List GoAny
  | [] => []
  | (k, v) :: rest => GoAny.str k :: v :: pairList rest

/-- The threshold InitLogging configures depends only on `debug`. -/
theorem initLogging_minLevel (d : Bool) (f : String) :
    (InitLogging d f).minLevel = if d then levelDebug else levelInfo := by
  unfold InitLogging
  split_ifs <;> rfl

/-- The handler InitLogging configures depends only on the format test. -/
theorem initLogging_handler (d : Bool) (f : String) :
    (InitLogging d f).handler =
      if goToLower f = "text" then HandlerKind.text else HandlerKind.json := by
  unfold InitLogging
  split_ifs <;> rfl

/-- All four InitLogging branches install the same attr rewrite. -/
theorem initLogging_replaceAttr (d : Bool) (f : String) :
    (InitLogging d f).replaceAttr = replace := by
  unfold InitLogging
  split_ifs <;> rfl

theorem debug_writeCount (l : GoLogger) (hErr : Option String) (m : String) (args : List GoAny) :
    resultWriteCount (Debug (some l) hErr m args) = if l.minLevel ≤ levelDebug then 1 else 0 := by
  by_cases h : l.minLevel ≤ levelDebug <;>
    simp [Debug, derefLogger, enabled, h, resultWriteCount, writeCount]

theorem debugf_writeCount (l : GoLogger) (hErr : Option String) (m : String) (args : List GoAny) :
    resultWriteCount (Debugf (some l) hErr m args) = if l.minLevel ≤ levelDebug then 1 else 0 := by
  by_cases h : l.minLevel ≤ levelDebug <;>
    simp [Debugf, derefLogger, enabled, h, resultWriteCount, writeCount]

theorem info_writeCount (l : GoLogger) (hErr : Option String) (m : String) (args : List GoAny) :
    resultWriteCount (Info (some l) hErr m args) = if l.minLevel ≤ levelInfo then 1 else 0 := by
  by_cases h : l.minLevel ≤ levelInfo <;>
    simp [Info, derefLogger, enabled, h, resultWriteCount, writeCount]

theorem infof_writeCount (l : GoLogger) (hErr : Option String) (m : String) (args : List GoAny) :
    resultWriteCount (Infof (some l) hErr m args) = if l.minLevel ≤ levelInfo then 1 else 0 := by
  by_cases h : l.minLevel ≤ levelInfo <;>
    simp [Infof, derefLogger, enabled, h, resultWriteCount, writeCount]

theorem warn_writeCount (l : GoLogger) (hErr : Option String) (m : String) (args : List GoAny) :
    resultWriteCount (Warn (some l) hErr m args) = if l.minLevel ≤ levelWarn then 1 else 0 := by
  by_cases h : l.minLevel ≤ levelWarn <;>
    simp [Warn, derefLogger, enabled, h, resultWriteCount, writeCount]

theorem warnf_writeCount (l : GoLogger) (hErr : Option String) (m : String) (args : List GoAny) :
    resultWriteCount (Warnf (some l) hErr m args) = if l.minLevel ≤ levelWarn then 1 else 0 := by
  by_cases h : l.minLevel ≤ levelWarn <;>
    simp [Warnf, derefLogger, enabled, h, resultWriteCount, writeCount]

theorem error_writeCount (l : GoLogger) (hErr : Option String) (m : String) (args : List GoAny) :
    resultWriteCount (Error (some l) hErr m args) = if l.minLevel ≤ levelError then 1 else 0 := by
  by_cases h : l.minLevel ≤ levelError <;>
    simp [Error, derefLogger, enabled, h, resultWriteCount, writeCount]

theorem errorf_writeCount (l : GoLogger) (hErr : Option String) (m : String) (args : List GoAny) :
    resultWriteCount (Errorf (some l) hErr m args) = if l.minLevel ≤ levelError then 1 else 0 := by
  by_cases h : l.minLevel ≤ levelError <;>
    simp [Errorf, derefLogger, enabled, h, resultWriteCount, writeCount]

theorem fatal_writeCount (l : GoLogger) (hErr : Option String) (m : String) (args : List GoAny) :
    resultWriteCount (Fatal (some l) hErr m args) = if l.minLevel ≤ LevelFatal then 1 else 0 := by
  by_cases h : l.minLevel ≤ LevelFatal <;>
    simp [Fatal, derefLogger, enabled, h, resultWriteCount, writeCount]

theorem fatalf_writeCount (l : GoLogger) (hErr : Option String) (m : String) (args : List GoAny) :
    resultWriteCount (Fatalf (some l) hErr m args) = if l.minLevel ≤ LevelFatal then 1 else 0 := by
  by_cases h : l.minLevel ≤ LevelFatal <;>
    simp [Fatalf, derefLogger, enabled, h, resultWriteCount, writeCount]

theorem debug_noExit (l : GoLogger) (hErr : Option String) (m : String) (args : List GoAny) :
    resultHasExit (Debug (some l) hErr m args) = false := by
  simp only [Debug, derefLogger]
  split <;> simp [resultHasExit, hasExit]

theorem debugf_noExit (l : GoLogger) (hErr : Option String) (m : String) (args : List GoAny) :
    resultHasExit (Debugf (some l) hErr m args) = false := by
  simp only [Debugf, derefLogger]
  split <;> simp [resultHasExit, hasExit]

theorem info_noExit (l : GoLogger) (hErr : Option String) (m : String) (args : List GoAny) :
    resultHasExit (Info (some l) hErr m args) = false := by
  simp only [Info, derefLogger]
  split <;> simp [resultHasExit, hasExit]

theorem infof_noExit (l : GoLogger) (hErr : Option String) (m : String) (args : List GoAny) :
    resultHasExit (Infof (some l) hErr m args) = false := by
  simp only [Infof, derefLogger]
  split <;> simp [resultHasExit, hasExit]

theorem warn_noExit (l : GoLogger) (hErr : Option String) (m : String) (args : List GoAny) :
    resultHasExit (Warn (some l) hErr m args) = false := by
  simp only [Warn, derefLogger]
  split <;> simp [resultHasExit, hasExit]

theorem warnf_noExit (l : GoLogger) (hErr : Option String) (m : String) (args : List GoAny) :
    resultHasExit (Warnf (some l) hErr m args) = false := by
  simp only [Warnf, derefLogger]
  split <;> simp [resultHasExit, hasExit]

theorem error_noExit (l : GoLogger) (hErr : Option String) (m : String) (args : List GoAny) :
    resultHasExit (Error (some l) hErr m args) = false := by
  simp only [Error, derefLogger]
  split <;> simp [resultHasExit, hasExit]

theorem errorf_noExit (l : GoLogger) (hErr : Option String) (m : String) (args : List GoAny) :
    resultHasExit (Errorf (some l) hErr m args) = false := by
  simp only [Errorf, derefLogger]
  split <;> simp [resultHasExit, hasExit]

/-- Evaluating a Go argument list threads the side-effect counter: the
values are the expressions' values and the counter grows by the number
of effectful expressions. -/
theorem evalArgs_spec (es : List GoExpr) (c : Nat) :
    evalArgs es c = (es.map exprVal, c + effectCount es) := by
  induction es generalizing c with
  | nil => simp [evalArgs, effectCount]
  | cons e rest ih =>
    cases e with
    | lit v =>
      simp only [evalArgs, evalExpr, List.map, exprVal, effectCount, ih]
    | effectful v =>
      simp only [evalArgs, evalExpr, List.map, exprVal, effectCount, ih, Prod.mk.injEq]
      exact ⟨trivial, by omega⟩

/-- takeWhile over a block that satisfies the predicate followed by an
element that refutes it returns exactly the block. -/
theorem takeWhile_block (p : Char → Bool) (l t : List Char) (x : Char)
    (hl : ∀ c ∈ l, p c = true) (hx : p x = false) :
    (l ++ x :: t).takeWhile p = l := by
  induction l with
  | nil => simp [List.takeWhile_cons, hx]
  | cons a as ih =>
    have ha : p a = true := hl a (List.mem_cons_self a as)
    simp only [List.cons_append, List.takeWhile_cons, ha, if_true]
    have := ih (fun c hc => hl c (List.mem_cons_of_mem a hc))
    simp [this]

/-- filepath.Base's char-list core on `dirs ++ '/' :: name` recovers
`name` whenever `name` is a nonempty separator-free last element. -/
theorem baseChars_append (ds name : List Char) (h1 : name ≠ [])
    (h2 : ∀ c ∈ name, c ≠ '/') :
    baseChars (ds ++ '/' :: name) = name := by
  have hrev : name.reverse ≠ [] := by simpa using h1
  obtain ⟨a, as, ha⟩ := List.exists_cons_of_ne_nil hrev
  have hmem : ∀ c ∈ name.reverse, c ≠ '/' := fun c hc => h2 c (List.mem_reverse.mp hc)
  have ha' : a ≠ '/' := hmem a (by rw [ha]; exact List.mem_cons_self a as)
  unfold baseChars
  have e1 : (ds ++ '/' :: name).reverse = name.reverse ++ '/' :: ds.reverse := by
    simp
  rw [e1, ha]
  have hdrop :
      ((a :: as) ++ '/' :: ds.reverse).dropWhile (fun c => decide (c = '/')) =
        (a :: as) ++ '/' :: ds.reverse := by
    simp only [List.cons_append, List.dropWhile_cons]
    simp [ha']
  rw [hdrop]
  have htake :
      ((a :: as) ++ '/' :: ds.reverse).takeWhile (fun c => decide (c ≠ '/')) = a :: as := by
    apply takeWhile_block
    · intro c hc
      have : c ∈ name.reverse := by rw [ha]; exact hc
      simpa using hmem c this
    · simp
  rw [htake, ← ha, List.reverse_reverse]

/-- filepath.Base of `dir ++ "/" ++ name` is `name` for a nonempty
separator-free `name`. -/
theorem goFilepathBase_append (dir name : String) (h1 : name.toList ≠ [])
    (h2 : ∀ c ∈ name.toList, c ≠ '/') :
    goFilepathBase (dir ++ "/" ++ name) = name := by
  have hdata : (dir ++ "/" ++ name).toList = dir.toList ++ '/' :: name.toList := by
    simp [String.toList, String.data_append]
  have hbase : baseChars (dir ++ "/" ++ name).toList = name.toList := by
    rw [hdata]
    exact baseChars_append dir.toList name.toList h1 h2
  have hne : (dir ++ "/" ++ name) ≠ "" := by
    intro hcontra
    rw [hcontra] at hdata
    simp [String.toList] at hdata
  unfold goFilepathBase
  rw [if_neg hne, hbase, if_neg h1]
  cases name
  rfl

/-- slog's pairing rule on a well-formed pair list with one dangling
value: the pairs survive in order and the dangler lands under !BADKEY. -/
theorem goPairArgs_pairList (front : List (String × GoAny)) (v : GoAny) :
    goPairArgs (pairList front ++ [v]) = front ++ [(badKey, v)] := by
  induction front with
  | nil =>
    cases v <;> simp [pairList, goPairArgs]
  | cons kv rest ih =>
    obtain ⟨k, w⟩ := kv
    simp [pairList, goPairArgs, ih]

/-- A flattened pair list has even length. -/
theorem pairList_length (front : List (String × GoAny)) :
    (pairList front).length = 2 * front.length := by
  induction front with
  | nil => simp [pairList]
  | cons kv rest ih => simp [pairList, ih]; omega

/-- C1: after InitLogging(debug, format) the configured threshold is
DEBUG (-4) when debug is true and INFO (0) when debug is false, and a
call at each of the five severities, in either calling convention,
hands exactly one record to the handler iff its severity is at or
above the threshold in the ordering DEBUG < INFO < WARN < ERROR <
FATAL, and hands over no record otherwise. -/
theorem C1_threshold_gating (debug : Bool) (format : String)
    (hErr : Option String) (m : String) (args : List GoAny) :
    (InitLogging debug format).minLevel = (if debug then levelDebug else levelInfo)
    ∧ resultWriteCount (Debug (some (InitLogging debug format)) hErr m args) =
        (if (InitLogging debug format).minLevel ≤ levelDebug then 1 else 0)
    ∧ resultWriteCount (Debugf (some (InitLogging debug format)) hErr m args) =
        (if (InitLogging debug format).minLevel ≤ levelDebug then 1 else 0)
    ∧ resultWriteCount (Info (some (InitLogging debug format)) hErr m args) =
        (if (InitLogging debug format).minLevel ≤ levelInfo then 1 else 0)
    ∧ resultWriteCount (Infof (some (InitLogging debug format)) hErr m args) =
        (if (InitLogging debug format).minLevel ≤ levelInfo then 1 else 0)
    ∧ resultWriteCount (Warn (some (InitLogging debug format)) hErr m args) =
        (if (InitLogging debug format).minLevel ≤ levelWarn then 1 else 0)
    ∧ resultWriteCount (Warnf (some (InitLogging debug format)) hErr m args) =
        (if (InitLogging debug format).minLevel ≤ levelWarn then 1 else 0)
    ∧ resultWriteCount (Error (some (InitLogging debug format)) hErr m args) =
        (if (InitLogging debug format).minLevel ≤ levelError then 1 else 0)
    ∧ resultWriteCount (Errorf (some (InitLogging debug format)) hErr m args) =
        (if (InitLogging debug format).minLevel ≤ levelError then 1 else 0)
    ∧ resultWriteCount (Fatal (some (InitLogging debug format)) hErr m args) =
        (if (InitLogging debug format).minLevel ≤ LevelFatal then 1 else 0)
    ∧ resultWriteCount (Fatalf (some (InitLogging debug format)) hErr m args) =
        (if (InitLogging debug format).minLevel ≤ LevelFatal then 1 else 0) :=
  ⟨initLogging_minLevel debug format,
   debug_writeCount _ hErr m args, debugf_writeCount _ hErr m args,
   info_writeCount _ hErr m args, infof_writeCount _ hErr m args,
   warn_writeCount _ hErr m args, warnf_writeCount _ hErr m args,
   error_writeCount _ hErr m args, errorf_writeCount _ hErr m args,
   fatal_writeCount _ hErr m args, fatalf_writeCount _ hErr m args⟩

/-- C2: when FATAL passes the threshold, Fatal and Fatalf hand their
record to the handler synchronously and only then exit with status 1:
the exit event is the last event of the trace, strictly after the
write. None of the eight other emitters ever produces an exit event
(InitLogging is a pure function whose codomain has no exit effect, so
it cannot exit either). -/
theorem C2_fatal_exits_after_write (l : GoLogger) (hErr : Option String)
    (m tpl : String) (args : List GoAny) :
    (enabled l LevelFatal = true →
      Fatal (some l) hErr m args =
        Except.ok [Ev.write { level := LevelFatal, msg := m, attrs := goPairArgs args } hErr,
                   Ev.exitProc 1]
      ∧ Fatalf (some l) hErr tpl args =
        Except.ok [Ev.fmtCall,
                   Ev.write { level := LevelFatal, msg := goSprintf tpl args, attrs := [] } hErr,
                   Ev.exitProc 1])
    ∧ resultHasExit (Debug (some l) hErr m args) = false
    ∧ resultHasExit (Debugf (some l) hErr tpl args) = false
    ∧ resultHasExit (Info (some l) hErr m args) = false
    ∧ resultHasExit (Infof (some l) hErr tpl args) = false
    ∧ resultHasExit (Warn (some l) hErr m args) = false
    ∧ resultHasExit (Warnf (some l) hErr tpl args) = false
    ∧ resultHasExit (Error (some l) hErr m args) = false
    ∧ resultHasExit (Errorf (some l) hErr tpl args) = false := by
  refine ⟨fun h => ?_,
    debug_noExit l hErr m args, debugf_noExit l hErr tpl args,
    info_noExit l hErr m args, infof_noExit l hErr tpl args,
    warn_noExit l hErr m args, warnf_noExit l hErr tpl args,
    error_noExit l hErr m args, errorf_noExit l hErr tpl args⟩
  constructor <;> simp [Fatal, Fatalf, derefLogger, h]

/-- C2 witness: a concrete INFO-threshold logger (FATAL enabled) on
which Fatal writes its record and then exits. -/
theorem C2_fatal_exits_after_write_witness :
    Fatal (some { minLevel := levelInfo, handler := HandlerKind.json, replaceAttr := replace })
        none "boom" [] =
      Except.ok [Ev.write { level := LevelFatal, msg := "boom", attrs := goPairArgs [] } none,
                 Ev.exitProc 1] :=
  ((C2_fatal_exits_after_write
      { minLevel := levelInfo, handler := HandlerKind.json, replaceAttr := replace }
      none "boom" "t" []).1 (by decide)).1

/-- C3: InitLogging selects the text handler iff lowercasing the
format string yields exactly "text"; every other value, including the
typo "yaml", silently selects the JSON handler. InitLogging is a total
function with no error result, so it never fails for any format. -/
theorem C3_format_fallback (debug : Bool) (format : String) :
    ((InitLogging debug format).handler = HandlerKind.text ↔ goToLower format = "text")
    ∧ (InitLogging true "yaml").handler = HandlerKind.json := by
  constructor
  · rw [initLogging_handler]
    by_cases h : goToLower format = "text" <;> simp [h]
  · rw [initLogging_handler]
    decide

/-- C4: the ReplaceAttr rewrite — installed identically for every
debug/format combination — reduces the source attr's file to its
basename (directory stripped) and renders severity by its name,
mapping the synthetic FATAL level 12 to the literal "FATAL", a name
the underlying slog.Level rendering (which shows 12 as "ERROR+4") does
not natively provide, while the four standard levels keep their native
names. -/
theorem C4_attr_rewrite (d : Bool) (f : String) (groups : List String)
    (fn file dir name : String) (line : Nat)
    (h1 : name.toList ≠ []) (h2 : ∀ c ∈ name.toList, c ≠ '/') :
    (InitLogging d f).replaceAttr = replace
    ∧ replace groups { key := sourceKey, value := SlogValue.source fn file line } =
        { key := sourceKey, value := SlogValue.source fn (goFilepathBase file) line }
    ∧ goFilepathBase (dir ++ "/" ++ name) = name
    ∧ replace groups { key := levelKey, value := SlogValue.level LevelFatal } =
        { key := "level", value := SlogValue.str "FATAL" }
    ∧ renderValue (replace groups { key := levelKey, value := SlogValue.level LevelFatal }).value
        = "FATAL"
    ∧ levelString LevelFatal = "ERROR+4"
    ∧ ¬ levelString LevelFatal = "FATAL"
    ∧ renderValue (replace groups { key := levelKey, value := SlogValue.level levelDebug }).value
        = "DEBUG"
    ∧ renderValue (replace groups { key := levelKey, value := SlogValue.level levelInfo }).value
        = "INFO"
    ∧ renderValue (replace groups { key := levelKey, value := SlogValue.level levelWarn }).value
        = "WARN"
    ∧ renderValue (replace groups { key := levelKey, value := SlogValue.level levelError }).value
        = "ERROR" :=
  ⟨initLogging_replaceAttr d f, rfl, goFilepathBase_append dir name h1 h2,
   rfl, rfl, by decide, by decide, rfl, rfl, rfl, rfl⟩

/-- C4 witness: the rewrite of a concrete caller path keeps only the
file's basename. -/
theorem C4_attr_rewrite_witness :
    goFilepathBase ("/tmp/demo" ++ "/" ++ "main.go") = "main.go" :=
  (C4_attr_rewrite false "json" [] "main.main" "/a/b/main.go" "/tmp/demo" "main.go" 29
      (by decide) (by decide)).2.2.1

/-- C5: with the severity enabled, the attribute-pair form emits one
record whose msg is the literal message with the supplied pairs
attached in caller order, while the formatted form emits one record
whose msg is the printf-style substitution and which carries no
attributes; checked against the spec's concrete examples
Infof("Value: %v", 42) and Info("Value", "n", 42) / Info("m","a",1,"b",2). -/
theorem C5_pairs_vs_formatted (l : GoLogger) (hErr : Option String)
    (m tpl : String) (args : List GoAny) (h : enabled l levelInfo = true) :
    Info (some l) hErr m args =
      Except.ok [Ev.write { level := levelInfo, msg := m, attrs := goPairArgs args } hErr]
    ∧ Infof (some l) hErr tpl args =
      Except.ok [Ev.fmtCall,
                 Ev.write { level := levelInfo, msg := goSprintf tpl args, attrs := [] } hErr]
    ∧ goSprintf "Value: %v" [GoAny.int 42] = "Value: 42"
    ∧ goPairArgs [GoAny.str "a", GoAny.int 1, GoAny.str "b", GoAny.int 2] =
        [("a", GoAny.int 1), ("b", GoAny.int 2)] := by
  refine ⟨?_, ?_, by decide, by decide⟩ <;> simp [Info, Infof, derefLogger, h]

/-- C5 witness: the spec's attribute example at a concrete logger. -/
theorem C5_pairs_vs_formatted_witness :
    Info (some { minLevel := levelInfo, handler := HandlerKind.json, replaceAttr := replace })
        none "Value" [GoAny.str "n", GoAny.int 42] =
      Except.ok [Ev.write { level := levelInfo, msg := "Value",
                            attrs := [("n", GoAny.int 42)] } none] :=
  (C5_pairs_vs_formatted
      { minLevel := levelInfo, handler := HandlerKind.json, replaceAttr := replace }
      none "Value" "Value: %v" [GoAny.str "n", GoAny.int 42] (by decide)).1

/-- C6 counterexample: Go is call-by-value, so at the call site
Debugf("%v", expensiveComputation()) under an INFO threshold the
argument is evaluated before Debugf runs: the side-effect counter ends
at 1, not 0, even though the suppressed call produces no events. This
refutes the claim that the evaluation of the substitution arguments
does not take place. -/
theorem C6_counterexample_eager_args :
    (callDebugf (some (InitLogging false "json")) none "%v"
        [GoExpr.effectful (GoAny.int 42)] 0).1 = Except.ok []
    ∧ (callDebugf (some (InitLogging false "json")) none "%v"
        [GoExpr.effectful (GoAny.int 42)] 0).2 ≠ 0 :=
  ⟨rfl, by decide⟩

/-- C6 amended: for every Debugf call site at a severity excluded by
the threshold, the printf-style formatting step does not take place
and no record is emitted — the call's trace is empty, so fmt.Sprintf
is never invoked — but, Go being strict, the substitution arguments
are still evaluated at the call site, once each. -/
theorem C6_lazy_formatting_amended (l : GoLogger) (hErr : Option String)
    (tpl : String) (es : List GoExpr) (c : Nat)
    (h : enabled l levelDebug = false) :
    (callDebugf (some l) hErr tpl es c).1 = Except.ok []
    ∧ (callDebugf (some l) hErr tpl es c).2 = c + effectCount es := by
  simp only [callDebugf, evalArgs_spec]
  constructor
  · simp [Debugf, derefLogger, h]
  · trivial

/-- C6 amended witness: a suppressed Debugf call with one effectful
and one pure argument leaves an empty trace and bumps the counter by
exactly one. -/
theorem C6_lazy_formatting_amended_witness :
    (callDebugf (some (InitLogging false "json")) none "%v %v"
        [GoExpr.effectful (GoAny.int 7), GoExpr.lit (GoAny.int 8)] 5).1 = Except.ok []
    ∧ (callDebugf (some (InitLogging false "json")) none "%v %v"
        [GoExpr.effectful (GoAny.int 7), GoExpr.lit (GoAny.int 8)] 5).2 =
      5 + effectCount [GoExpr.effectful (GoAny.int 7), GoExpr.lit (GoAny.int 8)] :=
  C6_lazy_formatting_amended (InitLogging false "json") none "%v %v"
    [GoExpr.effectful (GoAny.int 7), GoExpr.lit (GoAny.int 8)] 5 (by decide)

/-- C7: if the configured threshold excludes FATAL — any minimum level
above 12, such as a custom threshold of 13 — Fatal and Fatalf return
an empty trace: the threshold check precedes both the write and the
exit, so no record is handed to the handler and the process does not
terminate. -/
theorem C7_fatal_gated_by_threshold (l : GoLogger) (hErr : Option String)
    (m tpl : String) (args : List GoAny) (h : enabled l LevelFatal = false) :
    Fatal (some l) hErr m args = Except.ok []
    ∧ Fatalf (some l) hErr tpl args = Except.ok [] := by
  constructor <;> simp [Fatal, Fatalf, derefLogger, h]

/-- C7 witness: a custom threshold of 13 silences Fatal and Fatalf. -/
theorem C7_fatal_gated_by_threshold_witness :
    Fatal (some { minLevel := 13, handler := HandlerKind.json, replaceAttr := replace })
        none "boom" [GoAny.int 1] = Except.ok []
    ∧ Fatalf (some { minLevel := 13, handler := HandlerKind.json, replaceAttr := replace })
        none "b %v" [GoAny.int 1] = Except.ok [] :=
  C7_fatal_gated_by_threshold
    { minLevel := 13, handler := HandlerKind.json, replaceAttr := replace }
    none "boom" "b %v" [GoAny.int 1] (by decide)

/-- C8: every emitter discards the handler's write error: the
caller-observable trace (write errors erased) is independent of the
write outcome, every call on an initialized logger returns normally
(no panic and no surfaced error), and Fatal/Fatalf proceed to the
same exit behavior whether or not the write failed. -/
theorem C8_write_errors_swallowed (l : GoLogger) (hErr : Option String)
    (m : String) (args : List GoAny) :
    obsEvents (Debug (some l) hErr m args) = obsEvents (Debug (some l) none m args)
    ∧ isOkE (Debug (some l) hErr m args) = true
    ∧ obsEvents (Debugf (some l) hErr m args) = obsEvents (Debugf (some l) none m args)
    ∧ isOkE (Debugf (some l) hErr m args) = true
    ∧ obsEvents (Info (some l) hErr m args) = obsEvents (Info (some l) none m args)
    ∧ isOkE (Info (some l) hErr m args) = true
    ∧ obsEvents (Infof (some l) hErr m args) = obsEvents (Infof (some l) none m args)
    ∧ isOkE (Infof (some l) hErr m args) = true
    ∧ obsEvents (Warn (some l) hErr m args) = obsEvents (Warn (some l) none m args)
    ∧ isOkE (Warn (some l) hErr m args) = true
    ∧ obsEvents (Warnf (some l) hErr m args) = obsEvents (Warnf (some l) none m args)
    ∧ isOkE (Warnf (some l) hErr m args) = true
    ∧ obsEvents (Error (some l) hErr m args) = obsEvents (Error (some l) none m args)
    ∧ isOkE (Error (some l) hErr m args) = true
    ∧ obsEvents (Errorf (some l) hErr m args) = obsEvents (Errorf (some l) none m args)
    ∧ isOkE (Errorf (some l) hErr m args) = true
    ∧ obsEvents (Fatal (some l) hErr m args) = obsEvents (Fatal (some l) none m args)
    ∧ isOkE (Fatal (some l) hErr m args) = true
    ∧ obsEvents (Fatalf (some l) hErr m args) = obsEvents (Fatalf (some l) none m args)
    ∧ isOkE (Fatalf (some l) hErr m args) = true
    ∧ resultHasExit (Fatal (some l) hErr m args) = resultHasExit (Fatal (some l) none m args)
    ∧ resultHasExit (Fatalf (some l) hErr m args) =
        resultHasExit (Fatalf (some l) none m args) := by
  refine ⟨?_, ?_, ?_, ?_, ?_, ?_, ?_, ?_, ?_, ?_, ?_, ?_, ?_, ?_, ?_, ?_, ?_, ?_, ?_, ?_, ?_, ?_⟩ <;>
    (simp only [Debug, Debugf, Info, Infof, Warn, Warnf, Error, Errorf, Fatal, Fatalf,
       derefLogger]
     split <;> simp_all [obsEvents, eraseWriteErr, isOkE, resultHasExit, hasExit])

/-- C9: if any emitter is called before InitLogging has ever run, the
nil global Logger is dereferenced at the threshold check and the call
panics with a nil-pointer dereference — for every severity and both
calling conventions — rather than silently doing nothing. -/
theorem C9_nil_logger_panics (hErr : Option String) (m : String) (args : List GoAny) :
    Debug none hErr m args = Except.error GoPanic.nilPointerDereference
    ∧ Debugf none hErr m args = Except.error GoPanic.nilPointerDereference
    ∧ Info none hErr m args = Except.error GoPanic.nilPointerDereference
    ∧ Infof none hErr m args = Except.error GoPanic.nilPointerDereference
    ∧ Warn none hErr m args = Except.error GoPanic.nilPointerDereference
    ∧ Warnf none hErr m args = Except.error GoPanic.nilPointerDereference
    ∧ Error none hErr m args = Except.error GoPanic.nilPointerDereference
    ∧ Errorf none hErr m args = Except.error GoPanic.nilPointerDereference
    ∧ Fatal none hErr m args = Except.error GoPanic.nilPointerDereference
    ∧ Fatalf none hErr m args = Except.error GoPanic.nilPointerDereference :=
  ⟨rfl, rfl, rfl, rfl, rfl, rfl, rfl, rfl, rfl, rfl⟩

/-- C10: the pair-form emitters accept a variadic list of any length;
for a well-formed pair prefix followed by one dangling value the list
length is odd, and an enabled Debug or Info call still emits exactly
one record — no failure, no truncation — with the prefix pairs in
caller order and the dangling trailing value attached under the
sentinel key "!BADKEY" by slog's pairing rule. -/
theorem C10_odd_length_badkey (l : GoLogger) (hErr : Option String) (m : String)
    (front : List (String × GoAny)) (v : GoAny) :
    (pairList front ++ [v]).length % 2 = 1
    ∧ (enabled l levelDebug = true →
        Debug (some l) hErr m (pairList front ++ [v]) =
          Except.ok [Ev.write { level := levelDebug, msg := m,
                                attrs := front ++ [(badKey, v)] } hErr])
    ∧ (enabled l levelInfo = true →
        Info (some l) hErr m (pairList front ++ [v]) =
          Except.ok [Ev.write { level := levelInfo, msg := m,
                                attrs := front ++ [(badKey, v)] } hErr]) := by
  refine ⟨?_, fun h => ?_, fun h => ?_⟩
  · rw [List.length_append, pairList_length]
    simp
    omega
  · simp [Debug, derefLogger, h, goPairArgs_pairList]
  · simp [Info, derefLogger, h, goPairArgs_pairList]

/-- C10 witness: Info("m", "a", 1, 2) — three variadic arguments —
emits one record with attrs a=1 and !BADKEY=2. -/
theorem C10_odd_length_badkey_witness :
    Info (some { minLevel := levelDebug, handler := HandlerKind.json, replaceAttr := replace })
        none "m" [GoAny.str "a", GoAny.int 1, GoAny.int 2] =
      Except.ok [Ev.write { level := levelInfo, msg := "m",
                            attrs := [("a", GoAny.int 1), (badKey, GoAny.int 2)] } none] :=
  ((C10_odd_length_badkey
      { minLevel := levelDebug, handler := HandlerKind.json, replaceAttr := replace }
      none "m" [("a", GoAny.int 1)] (GoAny.int 2)).2.2) (by decide)

end Slogf
